import Mathlib

/-!
Shallow embedding of `test-cuda-installation.py`, a diagnostic script that
checks a CUDA installation via the PyTorch API and exits 0 iff both the
availability check (`test_cuda_availability`) and the cuDNN check
(`test_cudnn`) pass.

The external ML runtime (torch) is modelled as an environment `Env` whose
fields give the outcome of each external call the script makes: a call
either returns a value or raises a Python exception (`Except PyExc _`).
The script itself is embedded as total functions over `Env` that thread an
event log recording the observable effects (prints, tensor creation, the
probe matrix multiplication), with `try/except` blocks embedded as explicit
handlers over the body's outcome.
-/

namespace CudaTest

/-- A Python exception at `Exception` level: either an `ImportError`
(raised by `import torch`) or any other `Exception`. -/
inductive PyExc where
  | importError (msg : String)
  | otherError (msg : String)
deriving DecidableEq

/-- The message carried by an exception. -/
def PyExc.msg : PyExc → String
  | .importError m => m
  | .otherError m => m

/-- The fields of `torch.cuda.get_device_properties(i)` the script reads. -/
structure DeviceProps where
  total_memory : Nat
  major : Nat
  minor : Nat
deriving DecidableEq

/-- A torch tensor, abstracted to the two attributes the script observes:
its shape and the device it resides on. -/
structure Tensor where
  shape : List Nat
  device : String
deriving DecidableEq

/-- Modelled from the spec: `torch.randn(n, m, device=dev)` (the torch
tensor-creation call, external to this repository) produces a fresh array
of shape `(n, m)` residing on device `dev`. -/
def randn (n m : Nat) (dev : String) : Tensor :=
  { shape := [n, m], device := dev }

/-- Modelled from the spec: `torch.mm(x, y)` (the torch matrix-multiply
call, external to this repository) produces the matrix product, whose
"shape and storage location must match the inputs' device": for 2-D inputs
of shapes `(n, m)` and `(m, p)` the result has shape `(n, p)` and resides
on the inputs' device. -/
def mm (x y : Tensor) : Tensor :=
  { shape := [x.shape.headD 0, y.shape.getD 1 0], device := x.device }

/-- Observable events of a run: lines printed to stdout, tensors created
by `randn`, and the probe multiplication performed by `mm` (recording its
result). -/
inductive Event where
  | printed (s : String)
  | deviceName (i : Nat) (name : String)
  | deviceProps (i : Nat) (p : DeviceProps)
  | createdTensor (t : Tensor)
  | matmul (z : Tensor)
deriving DecidableEq

/-- The external torch runtime, one field per external call the script
performs.  Each fallible call either returns a value (`.ok`) or raises a
Python exception (`.error`). -/
structure Env where
  /-- `import torch`: succeeds or raises (an `ImportError` in practice). -/
  import_torch : Except PyExc Unit
  /-- `torch.__version__`. -/
  torch_version : String
  /-- `torch.cuda.is_available()`. -/
  is_available : Except PyExc Bool
  /-- `torch.cuda.device_count()`. -/
  device_count : Except PyExc Nat
  /-- `torch.version.cuda`. -/
  cuda_version : String
  /-- `torch.cuda.get_device_name(i)`. -/
  get_device_name : Nat → Except PyExc String
  /-- `torch.cuda.get_device_properties(i)`. -/
  get_device_properties : Nat → Except PyExc DeviceProps
  /-- Whether the k-th `torch.randn(1000, 1000, device=device)` call raises. -/
  randn_call : Nat → Except PyExc Unit
  /-- Whether the `torch.mm(x, y)` call raises. -/
  mm_call : Except PyExc Unit
  /-- `torch.backends.cudnn.enabled`. -/
  cudnn_enabled : Bool
  /-- `torch.backends.cudnn.version()`. -/
  cudnn_version : Except PyExc Nat

/-- How a function body finished: a normal `return b`, or an exception
that escaped the body. -/
inductive Outcome where
  | ret (b : Bool)
  | raised (e : PyExc)
deriving DecidableEq

/-- Result of running a body: its outcome together with the event log. -/
structure RunRes where
  outcome : Outcome
  log : List Event
deriving DecidableEq

/-- The `for i in range(device_count)` loop of `test_cuda_availability`:
starting at index `i` with `fuel` iterations left, query each device's
name and properties, logging them; an exception from either query aborts
the loop. Returns the raised exception (if any) and the events logged. -/
def enumFrom (env : Env) (i fuel : Nat) : Option PyExc × List Event :=
  match fuel with
  | 0 => (none, [])
  | fuel + 1 =>
    match env.get_device_name i with
    | .error e => (some e, [])
    | .ok name =>
      match env.get_device_properties i with
      | .error e => (some e, [Event.deviceName i name])
      | .ok props =>
        match enumFrom env (i + 1) fuel with
        | (err, rest) =>
          (err, Event.deviceName i name :: Event.deviceProps i props :: rest)

/-- The `try:` block of `test_cuda_availability` (lines 13-58): import
torch, query availability; if available, enumerate devices, create two
1000x1000 random tensors on `cuda:0`, multiply them and return `True`;
if not available, print the failure line and return `False`. -/
def cudaBody (env : Env) : RunRes :=
  match env.import_torch with
  | .error e => ⟨.raised e, []⟩
  | .ok _ =>
    let l0 := [Event.printed ("PyTorch version: " ++ env.torch_version)]
    match env.is_available with
    | .error e => ⟨.raised e, l0⟩
    | .ok false => ⟨.ret false, l0 ++ [Event.printed "CUDA is not available"]⟩
    | .ok true =>
      match env.device_count with
      | .error e => ⟨.raised e, l0⟩
      | .ok count =>
        let l1 := l0 ++ [Event.printed ("CUDA version: " ++ env.cuda_version)]
        match enumFrom env 0 count with
        | (some e, lDev) => ⟨.raised e, l1 ++ lDev⟩
        | (none, lDev) =>
          let l2 := l1 ++ lDev
          match env.randn_call 0 with
          | .error e => ⟨.raised e, l2⟩
          | .ok _ =>
            let x := randn 1000 1000 "cuda:0"
            let l3 := l2 ++ [Event.createdTensor x]
            match env.randn_call 1 with
            | .error e => ⟨.raised e, l3⟩
            | .ok _ =>
              let y := randn 1000 1000 "cuda:0"
              let l4 := l3 ++ [Event.createdTensor y]
              match env.mm_call with
              | .error e => ⟨.raised e, l4⟩
              | .ok _ =>
                let z := mm x y
                ⟨.ret true, l4 ++ [Event.matmul z,
                  Event.printed "Matrix multiplication test passed"]⟩

/-- `test_cuda_availability` (lines 7-65): run the body; `except
ImportError` and `except Exception` both print a failure message and
return `False`. -/
def test_cuda_availability (env : Env) : RunRes :=
  let r := cudaBody env
  match r.outcome with
  | .ret _ => r
  | .raised (.importError e) =>
    ⟨.ret false, r.log ++ [Event.printed ("Failed to import PyTorch: " ++ e)]⟩
  | .raised (.otherError e) =>
    ⟨.ret false, r.log ++ [Event.printed ("CUDA test failed: " ++ e)]⟩

/-- The `try:` block of `test_cudnn` (lines 69-77): import torch; if an
accelerator is available, read the cuDNN enabled flag, print it, print the
version when enabled, and return the flag; otherwise return `False`. -/
def cudnnBody (env : Env) : RunRes :=
  match env.import_torch with
  | .error e => ⟨.raised e, []⟩
  | .ok _ =>
    match env.is_available with
    | .error e => ⟨.raised e, []⟩
    | .ok false => ⟨.ret false, []⟩
    | .ok true =>
      let avail := env.cudnn_enabled
      let l0 := [Event.printed ("cuDNN enabled: " ++ toString avail)]
      if avail then
        match env.cudnn_version with
        | .error e => ⟨.raised e, l0⟩
        | .ok v =>
          ⟨.ret true, l0 ++ [Event.printed ("cuDNN version: " ++ toString v)]⟩
      else
        ⟨.ret false, l0⟩

/-- `test_cudnn` (lines 67-80): run the body; `except Exception` prints a
failure message and returns `False`. -/
def test_cudnn (env : Env) : RunRes :=
  let r := cudnnBody env
  match r.outcome with
  | .ret _ => r
  | .raised e =>
    ⟨.ret false, r.log ++ [Event.printed ("cuDNN test failed: " ++ e.msg)]⟩

/-- The `__main__` block (lines 82-108): run both checks and call
`sys.exit(0)` iff both returned `True`, `sys.exit(1)` otherwise.
Returns `some code` for the `sys.exit(code)` reached, or `none` if an
exception escaped a check (so no `sys.exit` call is reached). -/
def mainRun (env : Env) : Option Nat :=
  match (test_cuda_availability env).outcome with
  | .raised _ => none
  | .ret cuda_ok =>
    match (test_cudnn env).outcome with
    | .raised _ => none
    | .ret cudnn_ok => some (if cuda_ok && cudnn_ok then 0 else 1)

/-- Modelled from the spec: the external CUDA runtime's device-reporting
guarantee ("If an accelerator is reported present, device count >= 1 and
each enumerated device has a non-empty name and positive memory size"),
which belongs to torch/CUDA and not to this repository's source. -/
structure RuntimeReportsWF (env : Env) : Prop where
  count_pos : ∀ n, env.is_available = .ok true → env.device_count = .ok n → 1 ≤ n
  name_nonempty : ∀ i s, env.get_device_name i = .ok s → s ≠ ""
  memory_pos : ∀ i p, env.get_device_properties i = .ok p → 0 < p.total_memory

/-- A fully successful environment: torch imports, one healthy device,
all probe calls succeed, cuDNN enabled. -/
def envOk : Env where
  import_torch := .ok ()
  torch_version := "2.1.0"
  is_available := .ok true
  device_count := .ok 1
  cuda_version := "12.1"
  get_device_name := fun _ => .ok "NVIDIA A10G"
  get_device_properties := fun _ => .ok ⟨8589934592, 8, 6⟩
  randn_call := fun _ => .ok ()
  mm_call := .ok ()
  cudnn_enabled := true
  cudnn_version := .ok 8902

/-- An environment where torch imports but no accelerator is present. -/
def envNoCuda : Env :=
  { envOk with is_available := .ok false }

/-- An environment where `import torch` raises an `ImportError`. -/
def envNoTorch : Env :=
  { envOk with import_torch := .error (.importError "No module named torch") }

/-! ### Helper lemmas -/

/-- The two `except` handlers of `test_cuda_availability` are exhaustive:
the check always returns a boolean. -/
theorem tca_ret (env : Env) : ∃ b, (test_cuda_availability env).outcome = .ret b := by
  unfold test_cuda_availability
  cases h : (cudaBody env).outcome with
  | ret b => exact ⟨b, by simp [h]⟩
  | raised e => cases e <;> simp [h]

/-- The `except Exception` handler of `test_cudnn` is exhaustive: the
check always returns a boolean. -/
theorem tcn_ret (env : Env) : ∃ b, (test_cudnn env).outcome = .ret b := by
  unfold test_cudnn
  cases h : (cudnnBody env).outcome with
  | ret b => exact ⟨b, by simp [h]⟩
  | raised e => simp [h]

/-- The handlers only turn exceptions into `False`: the check returns
`True` exactly when its body returns `True`. -/
theorem tca_true_iff (env : Env) :
    (test_cuda_availability env).outcome = .ret true ↔
      (cudaBody env).outcome = .ret true := by
  unfold test_cuda_availability
  cases h : (cudaBody env).outcome with
  | ret b => simp [h]
  | raised e => cases e <;> simp [h]

/-- The handler only turns exceptions into `False`: `test_cudnn` returns
`True` exactly when its body returns `True`. -/
theorem tcn_true_iff (env : Env) :
    (test_cudnn env).outcome = .ret true ↔ (cudnnBody env).outcome = .ret true := by
  unfold test_cudnn
  cases h : (cudnnBody env).outcome with
  | ret b => simp [h]
  | raised e => simp [h]

/-- A handler never changes the body's log except by appending: every body
event is still in the check's final log. -/
theorem tca_log_mono (env : Env) :
    ∀ ev ∈ (cudaBody env).log, ev ∈ (test_cuda_availability env).log := by
  intro ev hev
  unfold test_cuda_availability
  cases h : (cudaBody env).outcome with
  | ret b => simpa [h] using hev
  | raised e => cases e <;> simp [h, hev]

/-- The handler of `test_cuda_availability` appends only `printed` events
to the body's log. -/
theorem tca_log_new (env : Env) :
    ∀ ev ∈ (test_cuda_availability env).log,
      ev ∈ (cudaBody env).log ∨ ∃ s, ev = Event.printed s := by
  intro ev hev
  simp only [test_cuda_availability] at hev
  cases h : (cudaBody env).outcome with
  | ret b => rw [h] at hev; exact Or.inl hev
  | raised e =>
    cases e <;> rw [h] at hev <;> simp at hev <;>
      rcases hev with hev | hev <;> simp [hev]

/-- If the device loop completes without an exception, every index it
visited had a successful name query and a successful properties query. -/
theorem enumFrom_ok_queries (env : Env) :
    ∀ fuel i lDev, enumFrom env i fuel = (none, lDev) →
      ∀ j, j < fuel →
        (∃ s, env.get_device_name (i + j) = .ok s) ∧
        (∃ p, env.get_device_properties (i + j) = .ok p) := by
  intro fuel
  induction fuel with
  | zero => intro i lDev _ j hj; omega
  | succ k ih =>
    intro i lDev h j hj
    unfold enumFrom at h
    cases hn : env.get_device_name i with
    | error e => rw [hn] at h; simp at h
    | ok name =>
      rw [hn] at h
      cases hp : env.get_device_properties i with
      | error e => rw [hp] at h; simp at h
      | ok props =>
        rw [hp] at h
        cases hrec : enumFrom env (i + 1) k with
        | mk err rest =>
          rw [hrec] at h
          simp at h
          obtain ⟨herr, _⟩ := h
          rcases Nat.eq_or_lt_of_le (Nat.succ_le_of_lt hj) with hle | hlt
          · rcases j with _ | j
            · exact ⟨⟨name, hn⟩, ⟨props, hp⟩⟩
            · have hjk : j < k := by omega
              have := ih (i + 1) rest (by rw [hrec, herr]) j hjk
              simpa [Nat.add_assoc, Nat.add_comm 1 j] using this
          · have hjk : j - 1 < k := by omega
            rcases j with _ | j
            · exact ⟨⟨name, hn⟩, ⟨props, hp⟩⟩
            · have := ih (i + 1) rest (by rw [hrec, herr]) j (by omega)
              simpa [Nat.add_assoc, Nat.add_comm 1 j] using this

/-- Every event the device loop logs is a `deviceName` or `deviceProps`
event whose payload came from the corresponding runtime query. -/
theorem enumFrom_events (env : Env) :
    ∀ fuel i res, enumFrom env i fuel = res →
      ∀ ev ∈ res.2,
        (∃ j s, ev = Event.deviceName j s ∧ env.get_device_name j = .ok s) ∨
        (∃ j p, ev = Event.deviceProps j p ∧ env.get_device_properties j = .ok p) := by
  intro fuel
  induction fuel with
  | zero =>
    intro i res h ev hev
    unfold enumFrom at h
    rw [← h] at hev
    simp at hev
  | succ k ih =>
    intro i res h ev hev
    unfold enumFrom at h
    cases hn : env.get_device_name i with
    | error e => rw [hn] at h; rw [← h] at hev; simp at hev
    | ok name =>
      rw [hn] at h
      cases hp : env.get_device_properties i with
      | error e =>
        rw [hp] at h; rw [← h] at hev
        simp at hev
        exact Or.inl ⟨i, name, hev, hn⟩
      | ok props =>
        rw [hp] at h
        cases hrec : enumFrom env (i + 1) k with
        | mk err rest =>
          rw [hrec] at h
          rw [← h] at hev
          simp at hev
          rcases hev with hev | hev | hev
          · exact Or.inl ⟨i, name, hev, hn⟩
          · exact Or.inr ⟨i, props, hev, hp⟩
          · exact ih (i + 1) (err, rest) hrec ev hev

/-- If the device loop completes without exception and has at least one
iteration, the first device's name and properties events are in its log. -/
theorem enumFrom_head_mem (env : Env) (i k : Nat) (lDev : List Event)
    (h : enumFrom env i (k + 1) = (none, lDev)) :
    ∃ s p, env.get_device_name i = .ok s ∧ env.get_device_properties i = .ok p ∧
      Event.deviceName i s ∈ lDev ∧ Event.deviceProps i p ∈ lDev := by
  unfold enumFrom at h
  cases hn : env.get_device_name i with
  | error e => rw [hn] at h; simp at h
  | ok name =>
    rw [hn] at h
    cases hp : env.get_device_properties i with
    | error e => rw [hp] at h; simp at h
    | ok props =>
      rw [hp] at h
      cases hrec : enumFrom env (i + 1) k with
      | mk err rest =>
        rw [hrec] at h
        rw [Prod.mk.injEq] at h
        obtain ⟨h1, h2⟩ := h
        exact ⟨name, props, rfl, rfl, by simp [← h2], by simp [← h2]⟩

/-- Characterization of a successful availability-check body: `True` is
returned only when every step of the sequence succeeded (import, the
availability query, the whole device loop, the two `randn` calls and the
`mm` call); in that case every device-loop event is in the final log. -/
theorem cudaBody_true_spec (env : Env)
    (h : (cudaBody env).outcome = .ret true) :
    env.import_torch = .ok () ∧ env.is_available = .ok true ∧
    ∃ n lDev, env.device_count = .ok n ∧ enumFrom env 0 n = (none, lDev) ∧
      (∀ ev ∈ lDev, ev ∈ (cudaBody env).log) ∧
      env.randn_call 0 = .ok () ∧ env.randn_call 1 = .ok () ∧
      env.mm_call = .ok () := by
  cases h1 : env.import_torch with
  | error e => simp [cudaBody, h1] at h
  | ok u =>
    cases u
    cases h2 : env.is_available with
    | error e => simp [cudaBody, h1, h2] at h
    | ok b =>
      cases b
      · simp [cudaBody, h1, h2] at h
      · cases h3 : env.device_count with
        | error e => simp [cudaBody, h1, h2, h3] at h
        | ok n =>
          cases h4 : enumFrom env 0 n with
          | mk err lDev =>
            cases err with
            | some e => simp [cudaBody, h1, h2, h3, h4] at h
            | none =>
              cases h5 : env.randn_call 0 with
              | error e => simp [cudaBody, h1, h2, h3, h4, h5] at h
              | ok u =>
                cases u
                cases h6 : env.randn_call 1 with
                | error e => simp [cudaBody, h1, h2, h3, h4, h5, h6] at h
                | ok u =>
                  cases u
                  cases h7 : env.mm_call with
                  | error e => simp [cudaBody, h1, h2, h3, h4, h5, h6, h7] at h
                  | ok u =>
                    cases u
                    refine ⟨rfl, rfl, n, lDev, rfl, h4, ?_, rfl, rfl, rfl⟩
                    intro ev hev
                    simp [cudaBody, h1, h2, h3, h4, h5, h6, h7, hev]

/-- Characterization of a successful cuDNN-check body: `True` is returned
only when torch imported, the accelerator is available, the enabled flag
is `True` and the version query succeeded. -/
theorem cudnnBody_true_spec (env : Env)
    (h : (cudnnBody env).outcome = .ret true) :
    env.import_torch = .ok () ∧ env.is_available = .ok true ∧
    env.cudnn_enabled = true ∧ ∃ v, env.cudnn_version = .ok v := by
  cases h1 : env.import_torch with
  | error e => simp [cudnnBody, h1] at h
  | ok u =>
    cases u
    cases h2 : env.is_available with
    | error e => simp [cudnnBody, h1, h2] at h
    | ok b =>
      cases b
      · simp [cudnnBody, h1, h2] at h
      · cases h3 : env.cudnn_enabled with
        | false => simp [cudnnBody, h1, h2, h3] at h
        | true =>
          cases h4 : env.cudnn_version with
          | error e => simp [cudnnBody, h1, h2, h3, h4] at h
          | ok v => exact ⟨rfl, rfl, rfl, v, rfl⟩

/-- Every tensor the availability body logs as created is the 1000x1000
random tensor on device cuda:0, and any probe product it logs is exactly
the product of two such tensors. -/
theorem cudaBody_log_tensors (env : Env) :
    (∀ t, Event.createdTensor t ∈ (cudaBody env).log → t = randn 1000 1000 "cuda:0") ∧
    (∀ z, Event.matmul z ∈ (cudaBody env).log →
      z = mm (randn 1000 1000 "cuda:0") (randn 1000 1000 "cuda:0")) := by
  cases h1 : env.import_torch with
  | error e => constructor <;> intro t ht <;> simp [cudaBody, h1] at ht
  | ok u =>
    cases u
    cases h2 : env.is_available with
    | error e => constructor <;> intro t ht <;> simp [cudaBody, h1, h2] at ht
    | ok b =>
      cases b
      · constructor <;> intro t ht <;> simp [cudaBody, h1, h2] at ht
      · cases h3 : env.device_count with
        | error e => constructor <;> intro t ht <;> simp [cudaBody, h1, h2, h3] at ht
        | ok n =>
          cases h4 : enumFrom env 0 n with
          | mk err lDev =>
            have hdev : ∀ t, Event.createdTensor t ∉ lDev := by
              intro t ht
              rcases enumFrom_events env n 0 (err, lDev) h4 _ ht with
                ⟨j, s, hs, _⟩ | ⟨j, p, hp, _⟩
              · simp at hs
              · simp at hp
            have hdev2 : ∀ z, Event.matmul z ∉ lDev := by
              intro z hz
              rcases enumFrom_events env n 0 (err, lDev) h4 _ hz with
                ⟨j, s, hs, _⟩ | ⟨j, p, hp, _⟩
              · simp at hs
              · simp at hp
            cases err with
            | some e =>
              constructor <;> intro t ht <;>
                simp [cudaBody, h1, h2, h3, h4] at ht
              · exact absurd ht (hdev t)
              · exact absurd ht (hdev2 t)
            | none =>
              cases h5 : env.randn_call 0 with
              | error e =>
                constructor <;> intro t ht <;>
                  simp [cudaBody, h1, h2, h3, h4, h5] at ht
                · exact absurd ht (hdev t)
                · exact absurd ht (hdev2 t)
              | ok u =>
                cases u
                cases h6 : env.randn_call 1 with
                | error e =>
                  constructor <;> intro t ht <;>
                    simp [cudaBody, h1, h2, h3, h4, h5, h6] at ht
                  · rcases ht with ht | ht
                    · exact absurd ht (hdev t)
                    · exact ht
                  · exact absurd ht (hdev2 t)
                | ok u =>
                  cases u
                  cases h7 : env.mm_call with
                  | error e =>
                    constructor <;> intro t ht <;>
                      simp [cudaBody, h1, h2, h3, h4, h5, h6, h7] at ht
                    · rcases ht with ht | ht
                      · exact absurd ht (hdev t)
                      · exact ht
                    · exact absurd ht (hdev2 t)
                  | ok u =>
                    cases u
                    constructor <;> intro t ht <;>
                      simp [cudaBody, h1, h2, h3, h4, h5, h6, h7] at ht
                    · rcases ht with ht | ht
                      · exact absurd ht (hdev t)
                      · exact ht
                    · rcases ht with ht | ht
                      · exact absurd ht (hdev2 t)
                      · exact ht

/-- Every device event the availability body logs carries exactly the
payload the runtime query returned for that device index. -/
theorem cudaBody_log_devices (env : Env) :
    (∀ i s, Event.deviceName i s ∈ (cudaBody env).log →
      env.get_device_name i = .ok s) ∧
    (∀ i p, Event.deviceProps i p ∈ (cudaBody env).log →
      env.get_device_properties i = .ok p) := by
  cases h1 : env.import_torch with
  | error e => constructor <;> intro i s h <;> simp [cudaBody, h1] at h
  | ok u =>
    cases u
    cases h2 : env.is_available with
    | error e => constructor <;> intro i s h <;> simp [cudaBody, h1, h2] at h
    | ok b =>
      cases b
      · constructor <;> intro i s h <;> simp [cudaBody, h1, h2] at h
      · cases h3 : env.device_count with
        | error e => constructor <;> intro i s h <;> simp [cudaBody, h1, h2, h3] at h
        | ok n =>
          cases h4 : enumFrom env 0 n with
          | mk err lDev =>
            have hname : ∀ i s, Event.deviceName i s ∈ lDev →
                env.get_device_name i = .ok s := by
              intro i s hmem
              rcases enumFrom_events env n 0 (err, lDev) h4 _ hmem with
                ⟨j, s2, hs, hq⟩ | ⟨j, p, hp, _⟩
              · simp at hs
                obtain ⟨rfl, rfl⟩ := hs
                exact hq
              · simp at hp
            have hprops : ∀ i p, Event.deviceProps i p ∈ lDev →
                env.get_device_properties i = .ok p := by
              intro i p hmem
              rcases enumFrom_events env n 0 (err, lDev) h4 _ hmem with
                ⟨j, s2, hs, _⟩ | ⟨j, p2, hp, hq⟩
              · simp at hs
              · simp at hp
                obtain ⟨rfl, rfl⟩ := hp
                exact hq
            cases err with
            | some e =>
              constructor <;> intro i s h <;>
                simp [cudaBody, h1, h2, h3, h4] at h
              · exact hname i s h
              · exact hprops i s h
            | none =>
              cases h5 : env.randn_call 0 with
              | error e =>
                constructor <;> intro i s h <;>
                  simp [cudaBody, h1, h2, h3, h4, h5] at h
                · exact hname i s h
                · exact hprops i s h
              | ok u =>
                cases u
                cases h6 : env.randn_call 1 with
                | error e =>
                  constructor <;> intro i s h <;>
                    simp [cudaBody, h1, h2, h3, h4, h5, h6] at h
                  · exact hname i s h
                  · exact hprops i s h
                | ok u =>
                  cases u
                  cases h7 : env.mm_call with
                  | error e =>
                    constructor <;> intro i s h <;>
                      simp [cudaBody, h1, h2, h3, h4, h5, h6, h7] at h
                    · exact hname i s h
                    · exact hprops i s h
                  | ok u =>
                    cases u
                    constructor <;> intro i s h <;>
                      simp [cudaBody, h1, h2, h3, h4, h5, h6, h7] at h
                    · exact hname i s h
                    · exact hprops i s h

/-! ### Claim theorems -/

/-- C1: when run as a program, the process exit code is 0 if and only if
both the availability check (`test_cuda_availability`) and the cuDNN check
(`test_cudnn`) return `True`; in every other case the exit code is 1. -/
theorem C1_exit_code (env : Env) :
    (mainRun env = some 0 ↔
      (test_cuda_availability env).outcome = .ret true ∧
      (test_cudnn env).outcome = .ret true) ∧
    (mainRun env = some 1 ↔
      ¬((test_cuda_availability env).outcome = .ret true ∧
        (test_cudnn env).outcome = .ret true)) := by
  obtain ⟨b1, hb1⟩ := tca_ret env
  obtain ⟨b2, hb2⟩ := tcn_ret env
  unfold mainRun
  rw [hb1, hb2]
  cases b1 <;> cases b2 <;> simp [hb1, hb2]

/-- C2: in every run where importing torch raises an `ImportError`, the
availability check returns `False` and the process exit code is 1. -/
theorem C2_import_error (env : Env) (msg : String)
    (h : env.import_torch = .error (.importError msg)) :
    (test_cuda_availability env).outcome = .ret false ∧ mainRun env = some 1 := by
  have hbody : cudaBody env = ⟨.raised (.importError msg), []⟩ := by
    simp [cudaBody, h]
  have hret : (test_cuda_availability env).outcome = .ret false := by
    simp [test_cuda_availability, hbody]
  refine ⟨hret, ?_⟩
  obtain ⟨b2, hb2⟩ := tcn_ret env
  unfold mainRun
  rw [hret, hb2]
  cases b2 <;> simp

/-- C2 witness: the torch-less environment makes the availability check
return `False` and the program exit 1. -/
theorem C2_import_error_witness :
    (test_cuda_availability envNoTorch).outcome = .ret false ∧
      mainRun envNoTorch = some 1 :=
  C2_import_error envNoTorch "No module named torch" rfl

/-- C3: every failure mode is caught at the check's own boundary: both
checks always return a boolean, and whenever a body raised an exception,
the corresponding check returns `False` with a failure message printed;
no exception escapes either check. -/
theorem C3_no_propagation (env : Env) :
    (∃ b, (test_cuda_availability env).outcome = .ret b) ∧
    (∃ b, (test_cudnn env).outcome = .ret b) ∧
    (∀ e, (cudaBody env).outcome = .raised e →
      (test_cuda_availability env).outcome = .ret false ∧
      ∃ m, Event.printed m ∈ (test_cuda_availability env).log) ∧
    (∀ e, (cudnnBody env).outcome = .raised e →
      (test_cudnn env).outcome = .ret false ∧
      ∃ m, Event.printed m ∈ (test_cudnn env).log) := by
  refine ⟨tca_ret env, tcn_ret env, ?_, ?_⟩
  · intro e he
    cases e with
    | importError m =>
      refine ⟨by simp [test_cuda_availability, he], ?_⟩
      exact ⟨"Failed to import PyTorch: " ++ m, by simp [test_cuda_availability, he]⟩
    | otherError m =>
      refine ⟨by simp [test_cuda_availability, he], ?_⟩
      exact ⟨"CUDA test failed: " ++ m, by simp [test_cuda_availability, he]⟩
  · intro e he
    refine ⟨by simp [test_cudnn, he], ?_⟩
    exact ⟨"cuDNN test failed: " ++ e.msg, by simp [test_cudnn, he]⟩

/-- C3 witness: at the torch-less environment the body raises and the
availability check still returns `False`. -/
theorem C3_no_propagation_witness :
    (test_cuda_availability envNoTorch).outcome = .ret false :=
  ((C3_no_propagation envNoTorch).2.2.1 (.importError "No module named torch")
    rfl).1

/-- C4: in every run where `torch.cuda.is_available()` reports `False`,
`test_cudnn` returns `False`, no matter the cuDNN enabled flag. -/
theorem C4_no_accel_cudnn_false (env : Env)
    (h : env.is_available = .ok false) :
    (test_cudnn env).outcome = .ret false := by
  cases h1 : env.import_torch with
  | error e => simp [test_cudnn, cudnnBody, h1]
  | ok u =>
    cases u
    simp [test_cudnn, cudnnBody, h1, h]

/-- C4 witness: in the accelerator-less environment (whose cuDNN flag is
enabled), `test_cudnn` returns `False`. -/
theorem C4_no_accel_cudnn_false_witness :
    envNoCuda.cudnn_enabled = true ∧
      (test_cudnn envNoCuda).outcome = .ret false :=
  ⟨rfl, C4_no_accel_cudnn_false envNoCuda rfl⟩

/-- C5: whenever the probe multiplication is performed, its result has
shape (1000, 1000) and resides on device cuda:0, the same device as every
tensor created for the probe. -/
theorem C5_probe_result (env : Env) :
    ∀ z, Event.matmul z ∈ (test_cuda_availability env).log →
      z.shape = [1000, 1000] ∧ z.device = "cuda:0" ∧
      ∀ t, Event.createdTensor t ∈ (test_cuda_availability env).log →
        t.device = z.device := by
  intro z hz
  rcases tca_log_new env _ hz with hz | ⟨s, hs⟩
  · obtain rfl := (cudaBody_log_tensors env).2 z hz
    refine ⟨rfl, rfl, ?_⟩
    intro t ht
    rcases tca_log_new env _ ht with ht | ⟨s, hs⟩
    · obtain rfl := (cudaBody_log_tensors env).1 t ht
      rfl
    · simp at hs
  · simp at hs

/-- C5 witness: in the fully successful environment the probe product is
logged and resides on cuda:0. -/
theorem C5_probe_result_witness :
    Event.matmul ⟨[1000, 1000], "cuda:0"⟩ ∈ (test_cuda_availability envOk).log ∧
      Tensor.device ⟨[1000, 1000], "cuda:0"⟩ = "cuda:0" := by
  have hmem : Event.matmul ⟨[1000, 1000], "cuda:0"⟩ ∈
      (test_cuda_availability envOk).log := by decide
  exact ⟨hmem, (C5_probe_result envOk _ hmem).2.1⟩

/-- C6: under the runtime's device-reporting guarantee, a successful
availability check implies the reported device count is at least one, a
device-name event was logged for device 0, and every logged device name is
non-empty and every logged memory size positive. -/
theorem C6_device_reports (env : Env) (hwf : RuntimeReportsWF env)
    (h : (test_cuda_availability env).outcome = .ret true) :
    (∀ n, env.device_count = .ok n → 1 ≤ n) ∧
    (∃ s, Event.deviceName 0 s ∈ (test_cuda_availability env).log) ∧
    (∀ i s, Event.deviceName i s ∈ (test_cuda_availability env).log → s ≠ "") ∧
    (∀ i p, Event.deviceProps i p ∈ (test_cuda_availability env).log →
      0 < p.total_memory) := by
  obtain ⟨h1, h2, n, lDev, h3, h4, hsub, h5, h6, h7⟩ :=
    cudaBody_true_spec env ((tca_true_iff env).1 h)
  have hcount : 1 ≤ n := hwf.count_pos n h2 h3
  refine ⟨?_, ?_, ?_, ?_⟩
  · intro m hm
    rw [h3] at hm
    injection hm with hm
    omega
  · obtain ⟨k, rfl⟩ : ∃ k, n = k + 1 := ⟨n - 1, by omega⟩
    obtain ⟨s, p, hs, hp, hmem, _⟩ := enumFrom_head_mem env 0 k lDev h4
    exact ⟨s, tca_log_mono env _ (hsub _ hmem)⟩
  · intro i s hmem
    rcases tca_log_new env _ hmem with hmem | ⟨m, hm⟩
    · exact hwf.name_nonempty i s ((cudaBody_log_devices env).1 i s hmem)
    · simp at hm
  · intro i p hmem
    rcases tca_log_new env _ hmem with hmem | ⟨m, hm⟩
    · exact hwf.memory_pos i p ((cudaBody_log_devices env).2 i p hmem)
    · simp at hm

/-- C6 witness: the fully successful single-device environment satisfies
the runtime guarantee, and the check's log names device 0. -/
theorem C6_device_reports_witness :
    ∃ s, Event.deviceName 0 s ∈ (test_cuda_availability envOk).log := by
  have hwf : RuntimeReportsWF envOk := by
    constructor
    · intro n _ hn
      simp [envOk] at hn
      omega
    · intro i s hs
      simp [envOk] at hs
      subst hs
      decide
    · intro i p hp
      simp [envOk] at hp
      subst hp
      decide
  exact (C6_device_reports envOk hwf (by decide)).2.1

/-- C7: when torch imports but no accelerator is present, the availability
check prints the "not available" line, returns `False`, creates no tensor
and performs no multiplication, and the program exits 1. -/
theorem C7_no_accel (env : Env) (h1 : env.import_torch = .ok ())
    (h2 : env.is_available = .ok false) :
    (test_cuda_availability env).outcome = .ret false ∧
    Event.printed "CUDA is not available" ∈ (test_cuda_availability env).log ∧
    (∀ t, Event.createdTensor t ∉ (test_cuda_availability env).log) ∧
    (∀ z, Event.matmul z ∉ (test_cuda_availability env).log) ∧
    mainRun env = some 1 := by
  have hbody : cudaBody env =
      ⟨.ret false, [Event.printed ("PyTorch version: " ++ env.torch_version),
        Event.printed "CUDA is not available"]⟩ := by
    simp [cudaBody, h1, h2]
  have hck : test_cuda_availability env =
      ⟨.ret false, [Event.printed ("PyTorch version: " ++ env.torch_version),
        Event.printed "CUDA is not available"]⟩ := by
    simp [test_cuda_availability, hbody]
  refine ⟨by rw [hck], by rw [hck]; simp, ?_, ?_, ?_⟩
  · intro t
    rw [hck]
    simp
  · intro z
    rw [hck]
    simp
  · obtain ⟨b2, hb2⟩ := tcn_ret env
    unfold mainRun
    rw [hck, hb2]
    cases b2 <;> simp

/-- C7 witness: the accelerator-less environment exercises every part of
the claim. -/
theorem C7_no_accel_witness :
    (test_cuda_availability envNoCuda).outcome = .ret false ∧
    Event.printed "CUDA is not available" ∈ (test_cuda_availability envNoCuda).log ∧
    (∀ t, Event.createdTensor t ∉ (test_cuda_availability envNoCuda).log) ∧
    (∀ z, Event.matmul z ∉ (test_cuda_availability envNoCuda).log) ∧
    mainRun envNoCuda = some 1 :=
  C7_no_accel envNoCuda rfl rfl

/-- C8: `test_cudnn` returns `True` only if the accelerator is reported
available and the cuDNN enabled flag is `True`; consequently exit code 0
implies an accelerator was found. -/
theorem C8_cudnn_implies_accel (env : Env) :
    ((test_cudnn env).outcome = .ret true →
      env.is_available = .ok true ∧ env.cudnn_enabled = true) ∧
    (mainRun env = some 0 → env.is_available = .ok true) := by
  constructor
  · intro h
    obtain ⟨_, h2, h3, _⟩ := cudnnBody_true_spec env ((tcn_true_iff env).1 h)
    exact ⟨h2, h3⟩
  · intro h
    obtain ⟨b1, hb1⟩ := tca_ret env
    obtain ⟨b2, hb2⟩ := tcn_ret env
    unfold mainRun at h
    rw [hb1, hb2] at h
    cases b1 <;> cases b2 <;> simp at h
    obtain ⟨_, h2, _, _⟩ := cudnnBody_true_spec env ((tcn_true_iff env).1 hb2)
    exact h2

/-- C8 witness: at the fully successful environment `test_cudnn` returns
`True`, so an accelerator was reported and the flag was enabled. -/
theorem C8_cudnn_implies_accel_witness :
    envOk.is_available = .ok true ∧ envOk.cudnn_enabled = true :=
  (C8_cudnn_implies_accel envOk).1 rfl

/-- C9: the availability check returns `True` only when the entire
sequence succeeded: torch imported, the accelerator was reported
available, every enumerated device answered both queries, and the two
tensor creations and the multiplication succeeded. -/
theorem C9_true_needs_all (env : Env)
    (h : (test_cuda_availability env).outcome = .ret true) :
    env.import_torch = .ok () ∧ env.is_available = .ok true ∧
    (∃ n, env.device_count = .ok n ∧ ∀ j, j < n →
      (∃ s, env.get_device_name j = .ok s) ∧
      (∃ p, env.get_device_properties j = .ok p)) ∧
    env.randn_call 0 = .ok () ∧ env.randn_call 1 = .ok () ∧
    env.mm_call = .ok () := by
  obtain ⟨h1, h2, n, lDev, h3, h4, _, h5, h6, h7⟩ :=
    cudaBody_true_spec env ((tca_true_iff env).1 h)
  refine ⟨h1, h2, ⟨n, h3, ?_⟩, h5, h6, h7⟩
  intro j hj
  have hq := enumFrom_ok_queries env n 0 lDev h4 j hj
  simpa using hq

/-- C9 witness: the fully successful environment returns `True`, and
indeed every step of its sequence succeeded. -/
theorem C9_true_needs_all_witness :
    envOk.import_torch = .ok () ∧ envOk.is_available = .ok true := by
  have h := C9_true_needs_all envOk rfl
  exact ⟨h.1, h.2.1⟩

/-- C10: whenever both checks return, the main program terminates by
calling `sys.exit` with exactly 0 or 1 and nothing else. -/
theorem C10_exit_total (env : Env) :
    mainRun env = some 0 ∨ mainRun env = some 1 := by
  obtain ⟨b1, hb1⟩ := tca_ret env
  obtain ⟨b2, hb2⟩ := tcn_ret env
  unfold mainRun
  rw [hb1, hb2]
  cases b1 <;> cases b2 <;> simp

end CudaTest
